import Mathlib

/-!
Shallow embedding of the Vietnamese IME core at src/core/src/data
(vowel.rs, chars.rs, vietnamese_spellcheck.rs, keys.rs), together with
theorems about its tone-placement, role-classification, character
composition and spell-check entry points.

Strings are modelled as lists of characters; Rust u16 key codes and u8
tone/mark values are modelled as Nat (no arithmetic on them can overflow
in the embedded code paths).
-/

namespace keys

/-- src/core/src/data/keys.rs: virtual keycode constants (the ones used here). -/
def A : Nat := 0

def D : Nat := 2

def E : Nat := 14

def Y : Nat := 16

def O : Nat := 31

def U : Nat := 32

def I : Nat := 34

end keys

/-- src/core/src/data/vowel.rs: vowel modifier type (none, circumflex, horn/breve). -/
inductive Modifier where
  | none
  | circumflex
  | horn
  deriving DecidableEq, Repr

/-- src/core/src/data/vowel.rs: phonological role in a syllable. -/
inductive Role where
  | main
  | medial
  | final
  deriving DecidableEq, Repr

/-- src/core/src/data/vowel.rs: vowel information (key, modifier, position). -/
structure Vowel where
  key : Nat
  modifier : Modifier
  pos : Nat
  deriving DecidableEq, Repr

/-- Vowel::has_diacritic: the modifier is not Modifier::None. -/
def Vowel.hasDiacritic (v : Vowel) : Bool :=
  match v.modifier with
  | Modifier.none => false
  | _ => true

/-- Phonology::is_medial_pair: oa, oe, ua, uê, uy key pairs. -/
def is_medial_pair (v1 v2 : Nat) : Bool :=
  (v1 == keys.O && v2 == keys.A) ||
  (v1 == keys.O && v2 == keys.E) ||
  (v1 == keys.U && v2 == keys.A) ||
  (v1 == keys.U && v2 == keys.E) ||
  (v1 == keys.U && v2 == keys.Y)

/-- Phonology::is_compound_vowel: ươ/uô (u+o) and iê (i+e) key pairs. -/
def is_compound_vowel (v1 v2 : Nat) : Bool :=
  (v1 == keys.U && v2 == keys.O) || (v1 == keys.I && v2 == keys.E)

/-- Phonology::is_main_glide_pair: second key is a glide (i, y, o, u) and the
pair is neither a medial pair nor a compound vowel. -/
def is_main_glide_pair (v1 v2 : Nat) : Bool :=
  (v2 == keys.I || v2 == keys.Y || v2 == keys.O || v2 == keys.U) &&
  ! is_medial_pair v1 v2 && ! is_compound_vowel v1 v2

/-- Fallback vowel used to express the (never out of bounds) indexing
vowels[mid] of the Rust source as List.getD. -/
def default_vowel : Vowel := ⟨0, Modifier.none, 0⟩

/-- Tail of Phonology::find_tone_position shared by the three-vowel
fall-through and the four-or-more-vowel path: middle vowel if it has a
diacritic, else the first vowel with a diacritic, else the middle vowel. -/
def find_tone_big (vowels : List Vowel) : Nat :=
  let mid := vowels.length / 2
  let vmid := vowels.getD mid default_vowel
  if vmid.hasDiacritic then vmid.pos
  else
    match vowels.find? (fun v => v.hasDiacritic) with
    | some v => v.pos
    | Option.none => vmid.pos

/-- Phonology::find_tone_position (src/core/src/data/vowel.rs, lines 86-187). -/
def find_tone_position (vowels : List Vowel) (has_final_consonant modern : Bool) : Nat :=
  match vowels with
  | [] => 0
  | [v] => v.pos
  | [v1, v2] =>
    if has_final_consonant then v2.pos
    else if v1.hasDiacritic && ! v2.hasDiacritic then v1.pos
    else if is_compound_vowel v1.key v2.key then v2.pos
    else if v2.hasDiacritic then v2.pos
    else if is_medial_pair v1.key v2.key then (if modern then v2.pos else v1.pos)
    else if is_main_glide_pair v1.key v2.key then v1.pos
    else v2.pos
  | [v1, v2, v3] =>
    if v2.hasDiacritic then v2.pos
    else if v3.hasDiacritic then v3.pos
    else if v1.key == keys.U && v2.key == keys.O then v2.pos
    else if v1.key == keys.O && v2.key == keys.A then v2.pos
    else if v1.key == keys.U && v2.key == keys.Y && v3.key == keys.E then v3.pos
    else find_tone_big [v1, v2, v3]
  | vs => find_tone_big vs

/-- Phonology::classify_roles (src/core/src/data/vowel.rs, lines 190-230).
For three or more vowels the Rust code initialises every role to Main, then
overwrites index 0 with Medial, index n-1 with Final when the syllable is
open, and finally index n/2 with Main; the conditional below reproduces that
last-write-wins order. -/
def classify_roles (vowels : List Vowel) (has_final_consonant : Bool) : List (Nat × Role) :=
  match vowels with
  | [] => []
  | [v] => [(v.pos, Role.main)]
  | [v1, v2] =>
    if is_medial_pair v1.key v2.key || is_compound_vowel v1.key v2.key || has_final_consonant then
      [(v1.pos, Role.medial), (v2.pos, Role.main)]
    else if is_main_glide_pair v1.key v2.key || (v1.hasDiacritic && ! v2.hasDiacritic) then
      [(v1.pos, Role.main), (v2.pos, Role.final)]
    else
      [(v1.pos, Role.main), (v2.pos, Role.main)]
  | vs =>
    let n := vs.length
    vs.enum.map (fun p =>
      ((p.2).pos,
        if p.1 = n / 2 then Role.main
        else if has_final_consonant = false ∧ p.1 = n - 1 then Role.final
        else if p.1 = 0 then Role.medial
        else Role.main))

/-- src/core/src/data/chars.rs: VOWEL_TABLE, each entry a base character and
its five tone-marked variants (sắc, huyền, hỏi, ngã, nặng). -/
def VOWEL_TABLE : List (Char × List Char) :=
  [ ('a', ['á', 'à', 'ả', 'ã', 'ạ']),
    ('ă', ['ắ', 'ằ', 'ẳ', 'ẵ', 'ặ']),
    ('â', ['ấ', 'ầ', 'ẩ', 'ẫ', 'ậ']),
    ('e', ['é', 'è', 'ẻ', 'ẽ', 'ẹ']),
    ('ê', ['ế', 'ề', 'ể', 'ễ', 'ệ']),
    ('i', ['í', 'ì', 'ỉ', 'ĩ', 'ị']),
    ('o', ['ó', 'ò', 'ỏ', 'õ', 'ọ']),
    ('ô', ['ố', 'ồ', 'ổ', 'ỗ', 'ộ']),
    ('ơ', ['ớ', 'ờ', 'ở', 'ỡ', 'ợ']),
    ('u', ['ú', 'ù', 'ủ', 'ũ', 'ụ']),
    ('ư', ['ứ', 'ừ', 'ử', 'ữ', 'ự']),
    ('y', ['ý', 'ỳ', 'ỷ', 'ỹ', 'ỵ']) ]

/-- chars.rs get_base_char: base vowel character from key plus tone modifier
(0 = plain, 1 = circumflex, 2 = horn/breve). -/
def get_base_char (key tone : Nat) : Option Char :=
  if key = keys.A then some (if tone = 1 then 'â' else if tone = 2 then 'ă' else 'a')
  else if key = keys.E then some (if tone = 1 then 'ê' else 'e')
  else if key = keys.I then some 'i'
  else if key = keys.O then some (if tone = 1 then 'ô' else if tone = 2 then 'ơ' else 'o')
  else if key = keys.U then some (if tone = 2 then 'ư' else 'u')
  else if key = keys.Y then some 'y'
  else none

/-- chars.rs apply_mark: look the base up in VOWEL_TABLE and take variant
mark-1; out-of-table bases (and mark 0 or mark > 5) return the base itself.
The Rust indexing marks[mark-1] is always in bounds (1 <= mark <= 5 against
rows of length 5), so List.getD with the base as fallback is equivalent. -/
def apply_mark (base : Char) (mark : Nat) : Char :=
  if mark = 0 ∨ 5 < mark then base
  else
    match VOWEL_TABLE.find? (fun p => p.1 == base) with
    | some p => p.2.getD (mark - 1) base
    | Option.none => base

/-- chars.rs to_upper embeds the Rust char::to_uppercase (first character of
the Unicode uppercase mapping) on the characters this module composes: for
ASCII letters the uppercase is the code point minus 32, and for the marked or
diacritic Vietnamese vowels it is the corresponding precomposed uppercase
code point; every such mapping is one-to-one, and characters outside the
table are returned unchanged, as char::to_uppercase does for characters
without an uppercase form. -/
def UPPER_TABLE : List (Char × Char) :=
  [ ('á', 'Á'), ('à', 'À'), ('ả', 'Ả'), ('ã', 'Ã'), ('ạ', 'Ạ'),
    ('ă', 'Ă'), ('ắ', 'Ắ'), ('ằ', 'Ằ'), ('ẳ', 'Ẳ'), ('ẵ', 'Ẵ'), ('ặ', 'Ặ'),
    ('â', 'Â'), ('ấ', 'Ấ'), ('ầ', 'Ầ'), ('ẩ', 'Ẩ'), ('ẫ', 'Ẫ'), ('ậ', 'Ậ'),
    ('é', 'É'), ('è', 'È'), ('ẻ', 'Ẻ'), ('ẽ', 'Ẽ'), ('ẹ', 'Ẹ'),
    ('ê', 'Ê'), ('ế', 'Ế'), ('ề', 'Ề'), ('ể', 'Ể'), ('ễ', 'Ễ'), ('ệ', 'Ệ'),
    ('í', 'Í'), ('ì', 'Ì'), ('ỉ', 'Ỉ'), ('ĩ', 'Ĩ'), ('ị', 'Ị'),
    ('ó', 'Ó'), ('ò', 'Ò'), ('ỏ', 'Ỏ'), ('õ', 'Õ'), ('ọ', 'Ọ'),
    ('ô', 'Ô'), ('ố', 'Ố'), ('ồ', 'Ồ'), ('ổ', 'Ổ'), ('ỗ', 'Ỗ'), ('ộ', 'Ộ'),
    ('ơ', 'Ơ'), ('ớ', 'Ớ'), ('ờ', 'Ờ'), ('ở', 'Ở'), ('ỡ', 'Ỡ'), ('ợ', 'Ợ'),
    ('ú', 'Ú'), ('ù', 'Ù'), ('ủ', 'Ủ'), ('ũ', 'Ũ'), ('ụ', 'Ụ'),
    ('ư', 'Ư'), ('ứ', 'Ứ'), ('ừ', 'Ừ'), ('ử', 'Ử'), ('ữ', 'Ữ'), ('ự', 'Ự'),
    ('ý', 'Ý'), ('ỳ', 'Ỳ'), ('ỷ', 'Ỷ'), ('ỹ', 'Ỹ'), ('ỵ', 'Ỵ') ]

/-- chars.rs to_upper: Unicode-aware uppercasing (see UPPER_TABLE). -/
def to_upper (ch : Char) : Char :=
  if 'a' ≤ ch ∧ ch ≤ 'z' then Char.ofNat (ch.toNat - 32)
  else
    match UPPER_TABLE.find? (fun p => p.1 == ch) with
    | some p => p.2
    | Option.none => ch

/-- chars.rs to_char: key plus caps, tone modifier and tone mark to the
composed character; key D maps to d/D, non-vowel keys to none. -/
def to_char (key : Nat) (caps : Bool) (tone mark : Nat) : Option Char :=
  if key = keys.D then some (if caps then 'D' else 'd')
  else
    match get_base_char key tone with
    | Option.none => none
    | some base =>
      let marked := apply_mark base mark
      some (if caps then to_upper marked else marked)

/-- vietnamese_spellcheck.rs: char::to_ascii_lowercase. -/
def to_ascii_lowercase (c : Char) : Char :=
  if 'A' ≤ c ∧ c ≤ 'Z' then Char.ofNat (c.toNat + 32) else c

/-- vietnamese_spellcheck.rs starts_with_foreign_consonant: the first
character, ASCII-lowercased, is z, w, j or f; false for the empty word. -/
def starts_with_foreign_consonant (word : List Char) : Bool :=
  match word with
  | [] => false
  | c :: _ =>
    let l := to_ascii_lowercase c
    l == 'z' || l == 'w' || l == 'j' || l == 'f'

/-- vietnamese_spellcheck.rs check_with_style_and_foreign. The two embedded
dictionary data files (dictionaries/vi_daumoi.dic, vi_daucu.dic) are data,
not source; each lookup parameter abstracts the corresponding
dict.contains(word.to_lowercase()) set membership after case folding, and the
theorems below quantify over both lookups. -/
def check_with_style_and_foreign (lookup_daumoi lookup_daucu : List Char → Bool)
    (word : List Char) (use_modern allow_foreign : Bool) : Bool :=
  if word.isEmpty then false
  else if ! allow_foreign && starts_with_foreign_consonant word then false
  else if use_modern then lookup_daumoi word else lookup_daucu word

example :
    find_tone_position [⟨keys.O, Modifier.none, 0⟩, ⟨keys.A, Modifier.none, 1⟩] false true = 1 := by
  decide

example :
    find_tone_position [⟨keys.U, Modifier.horn, 0⟩, ⟨keys.A, Modifier.none, 1⟩] false true = 0 := by
  decide

example :
    find_tone_position [⟨keys.A, Modifier.none, 0⟩, ⟨keys.I, Modifier.none, 1⟩] false true = 0 := by
  decide

example :
    find_tone_position [⟨keys.U, Modifier.horn, 0⟩, ⟨keys.O, Modifier.horn, 1⟩,
      ⟨keys.I, Modifier.none, 2⟩] false true = 1 := by
  decide

example :
    classify_roles [⟨keys.U, Modifier.horn, 0⟩, ⟨keys.A, Modifier.none, 1⟩] false =
      [(0, Role.medial), (1, Role.main)] := by
  decide

example : to_char keys.A false 1 1 = some 'ấ' := by decide

example : to_char keys.A true 1 1 = some 'Ấ' := by decide

example : to_char keys.U true 2 5 = some 'Ự' := by decide

example : to_char keys.E false 2 0 = some 'e' := by decide

example :
    check_with_style_and_foreign (fun _ => true) (fun _ => true) ['z', 'a'] true false = false := by
  decide

example :
    check_with_style_and_foreign (fun _ => true) (fun _ => true) ['a'] true false = true := by
  decide

/-- C1: in a two-vowel open syllable, a first vowel carrying a diacritic and
a second without one take the tone on the first vowel, for every key pair
(including compound-vowel and medial-pair key patterns) and both values of
the modern flag. -/
theorem c1_first_diacritic_wins (v1 v2 : Vowel) (modern : Bool)
    (h1 : v1.hasDiacritic = true) (h2 : v2.hasDiacritic = false) :
    find_tone_position [v1, v2] false modern = v1.pos := by
  simp [find_tone_position, h1, h2]

theorem c1_first_diacritic_wins_witness :
    (Vowel.mk keys.U Modifier.horn 0).hasDiacritic = true ∧
    (Vowel.mk keys.A Modifier.none 1).hasDiacritic = false ∧
    find_tone_position [Vowel.mk keys.U Modifier.horn 0, Vowel.mk keys.A Modifier.none 1]
      false true = (Vowel.mk keys.U Modifier.horn 0).pos :=
  ⟨rfl, rfl, c1_first_diacritic_wins _ _ true rfl rfl⟩

/-- C2: for a diacritic-free two-vowel open syllable whose keys form one of
the medial pairs o+a, o+e, u+a, u+e, u+y, the tone goes on the second vowel
in the modern style and on the first vowel in the traditional style. -/
theorem c2_medial_pair_style (v1 v2 : Vowel) (modern : Bool)
    (h1 : v1.modifier = Modifier.none) (h2 : v2.modifier = Modifier.none)
    (hk : (v1.key = keys.O ∧ v2.key = keys.A) ∨ (v1.key = keys.O ∧ v2.key = keys.E) ∨
          (v1.key = keys.U ∧ v2.key = keys.A) ∨ (v1.key = keys.U ∧ v2.key = keys.E) ∨
          (v1.key = keys.U ∧ v2.key = keys.Y)) :
    find_tone_position [v1, v2] false modern = if modern then v2.pos else v1.pos := by
  have d1 : v1.hasDiacritic = false := by simp [Vowel.hasDiacritic, h1]
  have d2 : v2.hasDiacritic = false := by simp [Vowel.hasDiacritic, h2]
  rcases hk with ⟨ha, hb⟩ | ⟨ha, hb⟩ | ⟨ha, hb⟩ | ⟨ha, hb⟩ | ⟨ha, hb⟩ <;>
    simp [find_tone_position, is_compound_vowel, is_medial_pair, d1, d2, ha, hb,
      keys.O, keys.A, keys.E, keys.U, keys.Y, keys.I]

theorem c2_medial_pair_style_witness :
    (Vowel.mk keys.O Modifier.none 0).modifier = Modifier.none ∧
    ((Vowel.mk keys.O Modifier.none 0).key = keys.O ∧
      (Vowel.mk keys.A Modifier.none 1).key = keys.A) ∧
    find_tone_position [Vowel.mk keys.O Modifier.none 0, Vowel.mk keys.A Modifier.none 1]
        false false =
      if (false : Bool) then (Vowel.mk keys.A Modifier.none 1).pos
      else (Vowel.mk keys.O Modifier.none 0).pos :=
  ⟨rfl, ⟨rfl, rfl⟩,
    c2_medial_pair_style _ _ false rfl rfl (Or.inl ⟨rfl, rfl⟩)⟩

/-- C3: with a final consonant, a two-vowel buffer always takes the tone on
the second vowel, for all keys, modifiers and both modern-flag values. -/
theorem c3_final_consonant_second (v1 v2 : Vowel) (modern : Bool) :
    find_tone_position [v1, v2] true modern = v2.pos := by
  simp [find_tone_position]

/-- C4: for a three-vowel buffer (any final-consonant and modern flags), a
middle vowel with a diacritic takes the tone; otherwise a last vowel with a
diacritic takes it; otherwise the key patterns u+o+_ and o+a+_ place it on
the middle vowel and u+y+e places it on the last vowel. -/
theorem c4_three_vowel_rules (v1 v2 v3 : Vowel) (hfc modern : Bool) :
    (v2.hasDiacritic = true →
      find_tone_position [v1, v2, v3] hfc modern = v2.pos) ∧
    (v2.hasDiacritic = false → v3.hasDiacritic = true →
      find_tone_position [v1, v2, v3] hfc modern = v3.pos) ∧
    (v2.hasDiacritic = false → v3.hasDiacritic = false →
      v1.key = keys.U → v2.key = keys.O →
      find_tone_position [v1, v2, v3] hfc modern = v2.pos) ∧
    (v2.hasDiacritic = false → v3.hasDiacritic = false →
      v1.key = keys.O → v2.key = keys.A →
      find_tone_position [v1, v2, v3] hfc modern = v2.pos) ∧
    (v2.hasDiacritic = false → v3.hasDiacritic = false →
      v1.key = keys.U → v2.key = keys.Y → v3.key = keys.E →
      find_tone_position [v1, v2, v3] hfc modern = v3.pos) := by
  refine ⟨?_, ?_, ?_, ?_, ?_⟩ <;> intros <;>
    simp [find_tone_position, keys.U, keys.O, keys.A, keys.E, keys.Y, *]

theorem c4_three_vowel_rules_witness :
    (Vowel.mk keys.O Modifier.horn 1).hasDiacritic = true ∧
    find_tone_position [Vowel.mk keys.U Modifier.horn 0, Vowel.mk keys.O Modifier.horn 1,
        Vowel.mk keys.I Modifier.none 2] false true = (Vowel.mk keys.O Modifier.horn 1).pos :=
  ⟨rfl, (c4_three_vowel_rules _ _ _ false true).1 rfl⟩

/-- C8: a non-empty word whose first character ASCII-lowercases to z, w, j
or f is never accepted when foreign consonants are disallowed, for either
dictionary style and any dictionary contents. -/
theorem c8_foreign_consonant_rejected (lookup_daumoi lookup_daucu : List Char → Bool)
    (c : Char) (rest : List Char) (use_modern : Bool)
    (h : to_ascii_lowercase c = 'z' ∨ to_ascii_lowercase c = 'w' ∨
         to_ascii_lowercase c = 'j' ∨ to_ascii_lowercase c = 'f') :
    check_with_style_and_foreign lookup_daumoi lookup_daucu (c :: rest) use_modern false =
      false := by
  have hsf : starts_with_foreign_consonant (c :: rest) = true := by
    simp only [starts_with_foreign_consonant]
    rcases h with h | h | h | h <;> simp [h]
  simp [check_with_style_and_foreign, hsf]

theorem c8_foreign_consonant_rejected_witness :
    to_ascii_lowercase 'Z' = 'z' ∧
    check_with_style_and_foreign (fun _ => true) (fun _ => true) ['Z', 'a'] true false = false :=
  ⟨by decide, c8_foreign_consonant_rejected _ _ 'Z' ['a'] true (Or.inl (by decide))⟩

/-- C10: the empty word is rejected for every combination of the style and
foreign-consonant flags and any dictionary contents. -/
theorem c10_empty_word_rejected (lookup_daumoi lookup_daucu : List Char → Bool)
    (use_modern allow_foreign : Bool) :
    check_with_style_and_foreign lookup_daumoi lookup_daucu [] use_modern allow_foreign =
      false := rfl

/-- C6: composition degrades undefined combinations to the plain base: keys
i and y ignore the tone modifier entirely, horn on e and circumflex on u
compose as plain e and u, and a mark of 0 or above 5 leaves the base vowel
unmarked (to_char then returns exactly the cased base character). -/
theorem c6_undefined_combinations_degrade (caps : Bool) (tone mark key : Nat) (base : Char) :
    to_char keys.I caps tone mark = to_char keys.I caps 0 mark ∧
    to_char keys.Y caps tone mark = to_char keys.Y caps 0 mark ∧
    to_char keys.E caps 2 mark = to_char keys.E caps 0 mark ∧
    to_char keys.U caps 1 mark = to_char keys.U caps 0 mark ∧
    ((mark = 0 ∨ 5 < mark) → get_base_char key tone = some base →
      to_char key caps tone mark = some (if caps then to_upper base else base)) := by
  refine ⟨?_, ?_, ?_, ?_, ?_⟩
  · simp [to_char, get_base_char, keys.I, keys.D, keys.A, keys.E]
  · simp [to_char, get_base_char, keys.Y, keys.D, keys.A, keys.E, keys.I, keys.O, keys.U]
  · simp [to_char, get_base_char, keys.E, keys.D, keys.A]
  · simp [to_char, get_base_char, keys.U, keys.D, keys.A, keys.E, keys.I, keys.O]
  · intro hm hb
    have hkd : key ≠ keys.D := by
      intro hk
      rw [hk] at hb
      simp [get_base_char, keys.D, keys.A, keys.E, keys.I, keys.O, keys.U, keys.Y] at hb
    simp [to_char, hkd, hb, apply_mark, hm]

theorem c6_undefined_combinations_degrade_witness :
    ((0 : Nat) = 0 ∨ 5 < (0 : Nat)) ∧ get_base_char keys.A 1 = some 'â' ∧
    to_char keys.A true 1 0 = some (if true then to_upper 'â' else 'â') :=
  ⟨Or.inl rfl, by decide,
    (c6_undefined_combinations_degrade true 1 0 keys.A 'â').2.2.2.2 (Or.inl rfl) (by decide)⟩

/-- C7: whenever lowercase composition yields a character, uppercase
composition yields its Unicode uppercase form (chars.rs to_upper). -/
theorem c7_caps_is_uppercase_of_lowercase (key tone mark : Nat) (c : Char)
    (h : to_char key false tone mark = some c) :
    to_char key true tone mark = some (to_upper c) := by
  by_cases hk : key = keys.D
  · simp [to_char, hk] at h
    simp [to_char, hk, ← h]
    decide
  · cases hb : get_base_char key tone with
    | none =>
      simp [to_char, hk, hb] at h
    | some base =>
      simp [to_char, hk, hb] at h
      simp [to_char, hk, hb, ← h]

theorem c7_caps_is_uppercase_of_lowercase_witness :
    to_char keys.A true 1 1 = some (to_upper 'ấ') :=
  c7_caps_is_uppercase_of_lowercase keys.A 1 1 'ấ' (by decide)

/-- The shared tail path of find_tone_position returns the position of some
vowel of a non-empty list. -/
theorem find_tone_big_mem (vs : List Vowel) (h : vs ≠ []) :
    ∃ v, v ∈ vs ∧ find_tone_big vs = v.pos := by
  have hlen : 0 < vs.length := List.length_pos.mpr h
  have hmid : vs.length / 2 < vs.length := Nat.div_lt_self hlen one_lt_two
  have hget : vs.getD (vs.length / 2) default_vowel = vs.get ⟨vs.length / 2, hmid⟩ := by
    rw [List.getD_eq_getElem?_getD, List.getElem?_eq_getElem hmid]
    rfl
  have hmem : vs.get ⟨vs.length / 2, hmid⟩ ∈ vs := List.get_mem vs _ hmid
  simp only [find_tone_big, hget]
  by_cases hd : (vs.get ⟨vs.length / 2, hmid⟩).hasDiacritic = true
  · rw [if_pos hd]
    exact ⟨_, hmem, rfl⟩
  · rw [if_neg hd]
    cases hf : vs.find? (fun v => v.hasDiacritic) with
    | none => exact ⟨_, hmem, rfl⟩
    | some v => exact ⟨v, List.mem_of_find?_eq_some hf, rfl⟩

/-- For two vowels the tone position is the first or the second position. -/
theorem find_tone_two_cases (v1 v2 : Vowel) (hfc modern : Bool) :
    find_tone_position [v1, v2] hfc modern = v1.pos ∨
    find_tone_position [v1, v2] hfc modern = v2.pos := by
  simp only [find_tone_position]
  repeat' split
  all_goals simp

/-- For three vowels the tone position belongs to one of the three vowels. -/
theorem find_tone_three_mem (v1 v2 v3 : Vowel) (hfc modern : Bool) :
    ∃ v, v ∈ [v1, v2, v3] ∧ find_tone_position [v1, v2, v3] hfc modern = v.pos := by
  simp only [find_tone_position]
  split
  · exact ⟨v2, by simp, rfl⟩
  split
  · exact ⟨v3, by simp, rfl⟩
  split
  · exact ⟨v2, by simp, rfl⟩
  split
  · exact ⟨v2, by simp, rfl⟩
  split
  · exact ⟨v3, by simp, rfl⟩
  · exact find_tone_big_mem [v1, v2, v3] (by simp)

/-- C9: on the empty buffer find_tone_position returns 0, and on any
non-empty buffer it returns the pos field of one of its vowels, for every
final-consonant and modern flag. -/
theorem c9_result_is_a_vowel_position (vowels : List Vowel) (hfc modern : Bool) :
    (vowels = [] → find_tone_position vowels hfc modern = 0) ∧
    (vowels ≠ [] → ∃ v, v ∈ vowels ∧ find_tone_position vowels hfc modern = v.pos) := by
  constructor
  · intro h; subst h; rfl
  · intro h
    rcases vowels with _ | ⟨a, _ | ⟨b, _ | ⟨c, _ | ⟨d, t⟩⟩⟩⟩
    · exact absurd rfl h
    · exact ⟨a, by simp, rfl⟩
    · rcases find_tone_two_cases a b hfc modern with h2 | h2
      · exact ⟨a, by simp, h2⟩
      · exact ⟨b, by simp, h2⟩
    · exact find_tone_three_mem a b c hfc modern
    · obtain ⟨v, hv, he⟩ := find_tone_big_mem (a :: b :: c :: d :: t) (by simp)
      exact ⟨v, hv, by simp only [find_tone_position]; exact he⟩

theorem c9_result_is_a_vowel_position_witness :
    ([Vowel.mk keys.A Modifier.none 5] : List Vowel) ≠ [] ∧
    ∃ v, v ∈ ([Vowel.mk keys.A Modifier.none 5] : List Vowel) ∧
      find_tone_position [Vowel.mk keys.A Modifier.none 5] false true = v.pos :=
  ⟨by decide,
    (c9_result_is_a_vowel_position [Vowel.mk keys.A Modifier.none 5] false true).2 (by decide)⟩

/-- C5 counterexample: for the open-syllable buffer ưa (keys u+a, horn on
the first vowel) with the modern flag, find_tone_position puts the tone at
position 0 while classify_roles assigns the Main role only to position 1
(the key pair o/u+a is a medial pair by keys alone), so the tone-bearing
position does not carry the Main role. -/
theorem c5_tone_not_on_main_counterexample :
    ¬ ((find_tone_position [Vowel.mk keys.U Modifier.horn 0, Vowel.mk keys.A Modifier.none 1]
          false true, Role.main) ∈
        classify_roles [Vowel.mk keys.U Modifier.horn 0, Vowel.mk keys.A Modifier.none 1]
          false) := by
  decide

/-- C5 amended: the tone position is a Main-role position for single-vowel
buffers and for two-vowel buffers closed by a final consonant; in general
find_tone_position and classify_roles can disagree (see the
counterexample). -/
theorem c5_tone_on_main_amended (vowels : List Vowel) (hfc modern : Bool)
    (h : vowels.length = 1 ∨ (vowels.length = 2 ∧ hfc = true)) :
    (find_tone_position vowels hfc modern, Role.main) ∈ classify_roles vowels hfc := by
  rcases vowels with _ | ⟨a, _ | ⟨b, t⟩⟩
  · rcases h with h | ⟨h, _⟩ <;> simp at h
  · simp [find_tone_position, classify_roles]
  · rcases h with h | ⟨h, hfc'⟩
    · simp at h
    · have ht : t = [] := by simpa using h
      subst ht
      subst hfc'
      simp [find_tone_position, classify_roles]

theorem c5_tone_on_main_amended_witness :
    (([Vowel.mk keys.A Modifier.none 0] : List Vowel).length = 1 ∨
      (([Vowel.mk keys.A Modifier.none 0] : List Vowel).length = 2 ∧ False)) ∧
    (find_tone_position [Vowel.mk keys.A Modifier.none 0] false true, Role.main) ∈
      classify_roles [Vowel.mk keys.A Modifier.none 0] false :=
  ⟨Or.inl rfl, c5_tone_on_main_amended [Vowel.mk keys.A Modifier.none 0] false true (Or.inl rfl)⟩
